import Mathlib

/-!
Verification of the slot-reservation and reminder logic of the CUSA portal
(`CUSA.py` and `reminder.py`).

The spreadsheet-backed slot store is shallowly embedded as follows.

* A cell value is a `Value`: Python `None`, `str`, `bool`, a number,
  a `date`, a `time`, or a `datetime`.  Dates are represented by their
  ordinal day number (`date.toordinal()`), times by the second count
  within the day, and a `datetime` by the pair of both; the Python order
  on datetimes then coincides with the order on
  `ordinal * 86400 + seconds`.  Numbers are represented by rationals.
* A data row of the sheet is a `Row`: one field per column name the
  reservation and reminder code addresses (the code resolves columns
  dynamically from the header row by name; the record fields play the
  role of those resolved columns, which are pairwise distinct headers).
* Python's `str.strip`, `str.lower`, `str.upper`, `str(v or "")` and
  truthiness are modelled explicitly (`pyStrip`, `pyLower`, `pyUpper`,
  `strOrEmpty`, `Value.truthy`).  The textual rendering `str(v)` of
  numeric, date and time values is an abstract stand-in: no claim
  depends on its exact spelling, only on the renderings of `None`,
  strings and booleans, which are exact.
-/

namespace CUSA

/-- Python whitespace characters removed by `str.strip()` (the ASCII ones;
the claims never involve non-ASCII whitespace). -/
def isPySpace (c : Char) : Bool :=
  c == ' ' || c == '\t' || c == '\n' || c == '\r' || c == '\x0b' || c == '\x0c'

/-- Remove trailing whitespace characters from a character list. -/
def dropTrail : List Char → List Char
  | [] => []
  | a :: t =>
    match dropTrail t with
    | [] => if isPySpace a then [] else [a]
    | b :: t' => a :: b :: t'

/-- Model of Python `s.strip()`: remove leading and trailing whitespace. -/
def pyStrip (s : String) : String :=
  String.mk (dropTrail (s.data.dropWhile isPySpace))

/-- Model of Python `s.lower()` (ASCII case folding). -/
def pyLower (s : String) : String :=
  String.mk (s.data.map Char.toLower)

/-- Model of Python `s.upper()` (ASCII case folding). -/
def pyUpper (s : String) : String :=
  String.mk (s.data.map Char.toUpper)

/-- A spreadsheet cell value, as the Python code can observe it. -/
inductive Value where
  | vnone
  | vstr (s : String)
  | vbool (b : Bool)
  | vnum (q : ℚ)
  | vdate (ordinal : Int)
  | vtime (secs : Nat)
  | vdatetime (ordinal : Int) (secs : Nat)
  deriving DecidableEq, Repr

/-- Python truthiness of a cell value.  `date`, `time` and `datetime`
objects are always truthy (Python ≥ 3.5). -/
def Value.truthy : Value → Bool
  | .vnone => false
  | .vstr s => s != ""
  | .vbool b => b
  | .vnum q => q != 0
  | .vdate _ => true
  | .vtime _ => true
  | .vdatetime _ _ => true

/-- Python `str(v)`.  The renderings of numeric, date and time values are
abstract stand-ins (no claim depends on their spelling); those of `None`,
strings and booleans are exact. -/
def Value.pyStr : Value → String
  | .vnone => "None"
  | .vstr s => s
  | .vbool b => if b then "True" else "False"
  | .vnum q => toString q
  | .vdate o => "pydate:" ++ toString o
  | .vtime t => "pytime:" ++ toString t
  | .vdatetime o t => "pydatetime:" ++ toString o ++ ":" ++ toString t

/-- Model of the ubiquitous Python idiom `str(v or "")`. -/
def strOrEmpty (v : Value) : String :=
  if v.truthy then v.pyStr else ""

/-- Model of Python `float(v or 0)` as used for the HOURS cell.
`none` marks values on which Python's `float()` would raise; numeric
strings are conservatively mapped to `none` as well (no claim touches
the HOURS conversion). -/
def pyFloatOpt (v : Value) : Option ℚ :=
  if v.truthy then
    match v with
    | .vnum q => some q
    | .vbool b => some (if b then 1 else 0)
    | _ => none
  else some 0

/-- One data row of the signup sheet, with one field per column the
reservation/reminder code addresses (columns are resolved by header name
in the source; field names follow the headers). -/
structure Row where
  event : Value
  location : Value
  date : Value
  start_time : Value
  end_time : Value
  hours : Value
  contact : Value
  first_name : Value
  last_name : Value
  completed : Value
  email : Value
  user_id : Value
  reserved_at : Value
  sent_24h : Value
  sent_1h : Value
  gcal_uid : Value
  deriving DecidableEq, Repr

/-- `parse_excel_date` from `CUSA.py`: a `datetime` yields its date part,
a `date` yields itself, anything else `None`.  (The result is the date's
ordinal day number.) -/
def parse_excel_date : Value → Option Int
  | .vdatetime o _ => some o
  | .vdate o => some o
  | _ => none

/-- `parse_excel_time` from `CUSA.py`: a `datetime` yields its time part,
a `time` yields itself, anything else `None`.  (The result is the second
count within the day.) -/
def parse_excel_time : Value → Option Nat
  | .vdatetime _ s => some s
  | .vtime s => some s
  | _ => none

/-- `slot_datetime` from `CUSA.py`: combine a date and a time into the
datetime `ordinal * 86400 + seconds`. -/
def slot_datetime (d : Int) (t : Nat) : Int :=
  d * 86400 + t

/-- The `Slot` dataclass of `CUSA.py`. -/
structure Slot where
  row : Nat
  event : String
  location : String
  start_dt : Int
  end_dt : Int
  hours : Option ℚ
  contact : String
  first_name : String
  last_name : String
  completed : String
  email : String
  deriving DecidableEq, Repr

/-- The event-name string `list_slots` computes:
`(str(event).strip() if event else "")`. -/
def event_name (row : Row) : String :=
  if row.event.truthy then pyStrip row.event.pyStr else ""

/-- The body of the row loop of `list_slots` (`CUSA.py`): `none` when the
row is skipped (`continue`), otherwise the parsed `Slot` for row number
`r`.  When the raw end time is at or before the start time the end
datetime is advanced by one day. -/
def rowToSlot (r : Nat) (row : Row) : Option Slot :=
  if !(row.event.truthy || row.date.truthy || row.start_time.truthy || row.end_time.truthy) then
    none
  else if event_name row == "" then
    none
  else
    match parse_excel_date row.date, parse_excel_time row.start_time,
        parse_excel_time row.end_time with
    | some d, some stt, some ent =>
      some
        { row := r
          event := event_name row
          location := pyStrip (strOrEmpty row.location)
          start_dt := slot_datetime d stt
          end_dt :=
            if slot_datetime d ent ≤ slot_datetime d stt then
              slot_datetime d ent + 86400
            else slot_datetime d ent
          hours := pyFloatOpt row.hours
          contact := pyStrip (strOrEmpty row.contact)
          first_name := pyStrip (strOrEmpty row.first_name)
          last_name := pyStrip (strOrEmpty row.last_name)
          completed := pyStrip (strOrEmpty row.completed)
          email := pyStrip (strOrEmpty row.email) }
    | _, _, _ => none

/-- Worker for `list_slots`: `r` is the sheet row number of the first
element of the list. -/
def list_slots_go (r : Nat) : List Row → List Slot
  | [] => []
  | row :: rest =>
    match rowToSlot r row with
    | some s => s :: list_slots_go (r + 1) rest
    | none => list_slots_go (r + 1) rest

/-- `list_slots` from `CUSA.py`, on the data rows below the header row
(sheet row numbers `header_row + 1`, `header_row + 2`, …). -/
def list_slots (header_row : Nat) (rows : List Row) : List Slot :=
  list_slots_go (header_row + 1) rows

/-- The taken-check of `reserve_excel_slot` (`CUSA.py` line 453):
`str(fn_cell.value or "").strip() or str(ln_cell.value or "").strip()`. -/
def row_is_taken (row : Row) : Bool :=
  pyStrip (strOrEmpty row.first_name) != "" || pyStrip (strOrEmpty row.last_name) != ""

/-- The taken/open classification of the Signups tab (`CUSA.py` line 690):
`bool(s.first_name.strip() or s.last_name.strip())` on a parsed `Slot`. -/
def signups_is_taken (s : Slot) : Bool :=
  pyStrip s.first_name != "" || pyStrip s.last_name != ""

/-- The logged-in user record handed to `reserve_excel_slot` (as produced
by `authenticate`). -/
structure User where
  first_name : String
  last_name : String
  email : String
  id : String
  deriving DecidableEq, Repr

/-- `reserve_excel_slot` from `CUSA.py`, acting on the slot's row.  The
current wall-clock datetime (`datetime.now()`, written into RESERVED_AT)
is passed in as `nowOrd`/`nowSecs`.  Returns the `(ok, message)` result
and the row as persisted. -/
def reserve_excel_slot (row : Row) (user : User) (nowOrd : Int) (nowSecs : Nat) :
    (Bool × String) × Row :=
  if row_is_taken row then
    ((false, "That slot is already taken."), row)
  else
    ((true, "Reserved!"),
      { row with
          first_name := .vstr (pyStrip user.first_name)
          last_name := .vstr (pyStrip user.last_name)
          email := .vstr (pyLower (pyStrip user.email))
          user_id := .vstr user.id
          reserved_at := .vdatetime nowOrd nowSecs
          sent_24h := .vbool false
          sent_1h := .vbool false
          gcal_uid := .vstr "" })

/-- `cancel_excel_reservation` from `CUSA.py`, acting on the slot's row.
Returns the `(ok, message)` result and the row as persisted. -/
def cancel_excel_reservation (row : Row) (email : String) :
    (Bool × String) × Row :=
  if pyLower (pyStrip (strOrEmpty row.email)) != pyLower (pyStrip email) then
    ((false, "You can only cancel your own reservation."), row)
  else if pyStrip (strOrEmpty row.completed) != "" then
    ((false, "This slot is marked completed. Contact an admin."), row)
  else
    ((true, "Cancelled."),
      { row with
          first_name := .vstr ""
          last_name := .vstr ""
          email := .vstr ""
          user_id := .vstr ""
          reserved_at := .vstr ""
          sent_24h := .vbool false
          sent_1h := .vbool false
          gcal_uid := .vstr "" })

/-- The blank-row test of the placement scan in `admin_add_slot_excel`
(`CUSA.py` line 513): the EVENT, DATE and START TIME cells are all falsy. -/
def add_row_blank (row : Row) : Bool :=
  !(row.event.truthy || row.date.truthy || row.start_time.truthy)

/-- The row `admin_add_slot_excel` writes: admin-supplied fields (names
stripped, the date stored as a midnight `datetime`, times as `time`
objects, hours as a number) and blank/false reservation and tracking
fields. -/
def admin_new_row (event location : String) (d : Int) (start_t end_t : Nat)
    (hours : ℚ) (contact : String) : Row :=
  { event := .vstr (pyStrip event)
    location := .vstr (pyStrip location)
    date := .vdatetime d 0
    start_time := .vtime start_t
    end_time := .vtime end_t
    hours := .vnum hours
    contact := .vstr (pyStrip contact)
    first_name := .vstr ""
    last_name := .vstr ""
    completed := .vstr ""
    email := .vstr ""
    user_id := .vstr ""
    reserved_at := .vstr ""
    sent_24h := .vbool false
    sent_1h := .vbool false
    gcal_uid := .vstr "" }

/-- `admin_add_slot_excel` from `CUSA.py`, on the data rows below the
header row.  The scan stops at the first row whose EVENT, DATE and START
TIME cells are all falsy and overwrites that row; if there is none, a new
row is appended at the end (`r = max_row + 1`).  Returns the
`(ok, message)` result and the data rows as persisted. -/
def admin_add_slot_excel (header_row : Nat) (rows : List Row)
    (event location : String) (d : Int) (start_t end_t : Nat)
    (hours : ℚ) (contact : String) : (Bool × String) × List Row :=
  let i := rows.findIdx add_row_blank
  let newRow := admin_new_row event location d start_t end_t hours contact
  ((true, "Added slot at row " ++ toString (header_row + 1 + i)),
    if i < rows.length then rows.set i newRow else rows ++ [newRow])

/-- `TRACK_HEADERS` from `CUSA.py` / `reminder.py`. -/
def TRACK_HEADERS : List String :=
  ["EMAIL", "USER_ID", "RESERVED_AT", "SENT_24H", "SENT_1H", "GCAL_UID"]

/-- Membership of `name` in the `get_headers` dictionary of a header row
(`CUSA.py` / `reminder.py`): some cell is a string with non-blank strip
whose stripped uppercasing is `name`. -/
def header_has (hdr : List Value) (name : String) : Bool :=
  hdr.any fun v =>
    match v with
    | .vstr s => pyStrip s != "" && pyUpper (pyStrip s) == name
    | _ => false

/-- The column the `while`-scan of `ensure_tracking_columns` stops at:
the first (1-based) column of the header row holding `None`, or one past
the row's used columns. -/
def first_none_col (hdr : List Value) : Nat :=
  hdr.findIdx (fun v => v == Value.vnone) + 1

/-- Write `v` into 1-based column `col` of the header row, extending the
row as needed. -/
def set_col (hdr : List Value) (col : Nat) (v : Value) : List Value :=
  if col ≤ hdr.length then hdr.set (col - 1) v
  else hdr ++ List.replicate (col - 1 - hdr.length) Value.vnone ++ [v]

/-- The `for th in TRACK_HEADERS` loop of `ensure_tracking_columns`:
membership is tested against the header dictionary `orig` computed once
before any write, while the writes land in `hdr` at the running column
`col`. -/
def ensure_go (orig : List Value) : List String → List Value → Nat → List Value
  | [], hdr, _ => hdr
  | th :: rest, hdr, col =>
    if header_has orig (pyUpper th) then ensure_go orig rest hdr col
    else ensure_go orig rest (set_col hdr col (.vstr th)) (col + 1)

/-- `ensure_tracking_columns` from `CUSA.py` (line 364), acting on the
header row.  `ensure_tracking` of `reminder.py` (line 98) has the same
body cell for cell and is modelled by this same function. -/
def ensure_tracking_columns (hdr : List Value) : List Value :=
  ensure_go hdr TRACK_HEADERS hdr (first_none_col hdr)

/-- `parse_dt` from `reminder.py`: `None` on falsy inputs; otherwise the
date part of `dv` combined with the time part of `tv`.  On truthy values
of other types Python raises (`d.year` on a non-date); that crash of the
sweep is modelled as `none` here and excluded by `reminder_considered`
in the theorems. -/
def parse_dt (dv tv : Value) : Option Int :=
  if !dv.truthy || !tv.truthy then none
  else
    match parse_excel_date dv, parse_excel_time tv with
    | some d, some t => some (slot_datetime d t)
    | _, _ => none

/-- The row filter of the reminder sweep (`reminder.py` line 145):
`event and dv and stv and env and email`, where `email` is the stripped
EMAIL cell. -/
def reminder_basic_ok (row : Row) : Bool :=
  row.event.truthy && row.date.truthy && row.start_time.truthy &&
    row.end_time.truthy && (pyStrip (strOrEmpty row.email) != "")

/-- A slot the sweep fully considers: it passes the row filter and its
date/start/end parse. -/
def reminder_considered (row : Row) : Bool :=
  reminder_basic_ok row && (parse_dt row.date row.start_time).isSome &&
    (parse_dt row.date row.end_time).isSome

/-- The 24-hour window test (`reminder.py` line 169):
`timedelta(hours=23, minutes=30) <= delta <= timedelta(hours=24, minutes=30)`,
i.e. 84600 s ≤ delta ≤ 88200 s. -/
def window24 (delta : Int) : Bool :=
  decide (84600 ≤ delta) && decide (delta ≤ 88200)

/-- The 1-hour window test (`reminder.py` line 175):
`timedelta(minutes=30) <= delta <= timedelta(hours=1, minutes=30)`,
i.e. 1800 s ≤ delta ≤ 5400 s. -/
def window1 (delta : Int) : Bool :=
  decide (1800 ≤ delta) && decide (delta ≤ 5400)

/-- Result of the sweep body on one row: the row as left in the sheet and
whether the 24-hour / 1-hour reminder email was sent for it. -/
structure RowStep where
  row : Row
  sent24 : Bool
  sent1 : Bool
  deriving DecidableEq, Repr

/-- The body of the row loop of `main` in `reminder.py` (lines 138-179)
for one row.  `now` is `datetime.now()`; `freshUid` stands for the
`str(uuid.uuid4())` drawn in line 165 (used only when the stored GCAL_UID
strips to blank; a UUID rendering is a non-empty string without
whitespace).  Rows on which `parse_dt` would raise are left untouched
(see `parse_dt`).  The computed `end_dt` only feeds the email body and
ICS attachment, which are not modelled. -/
def reminder_row_step (now : Int) (freshUid : String) (row : Row) : RowStep :=
  if reminder_basic_ok row then
    match parse_dt row.date row.start_time, parse_dt row.date row.end_time with
    | some start_dt, some _ =>
      let sent24 := row.sent_24h.truthy
      let sent1 := row.sent_1h.truthy
      let delta := start_dt - now
      let uid :=
        if pyStrip (strOrEmpty row.gcal_uid) != "" then pyStrip (strOrEmpty row.gcal_uid)
        else freshUid
      let send24 := window24 delta && !sent24
      let send1 := window1 delta && !sent1
      { row :=
          { row with
              gcal_uid := .vstr uid
              sent_24h := if send24 then .vbool true else row.sent_24h
              sent_1h := if send1 then .vbool true else row.sent_1h }
        sent24 := send24
        sent1 := send1 }
    | _, _ => ⟨row, false, false⟩
  else ⟨row, false, false⟩

/-- The row as `cancel_excel_reservation` leaves it on success: all
reservation fields blanked, both sent-flags reset, GCAL_UID cleared. -/
def cleared_row (row : Row) : Row :=
  { row with
      first_name := .vstr ""
      last_name := .vstr ""
      email := .vstr ""
      user_id := .vstr ""
      reserved_at := .vstr ""
      sent_24h := .vbool false
      sent_1h := .vbool false
      gcal_uid := .vstr "" }

/-- Wellformedness of a time cell: a `time`/`datetime` read from a real
sheet carries a second count below 86400 (Python times always do). -/
def time_secs_ok (v : Value) : Bool :=
  match parse_excel_time v with
  | some s => decide (s < 86400)
  | none => true

/-! ### Example rows and headers used by witnesses and counterexamples -/

/-- An open slot row: valid event/date/times, whitespace-only FIRST NAME,
empty LAST NAME cell. -/
def exOpenRow : Row :=
  { event := .vstr "Tour", location := .vstr "Lobby", date := .vdate 739181,
    start_time := .vtime 36000, end_time := .vtime 39600, hours := .vnum 1,
    contact := .vstr "Kevin", first_name := .vstr "  ", last_name := .vnone,
    completed := .vstr "", email := .vstr "", user_id := .vstr "",
    reserved_at := .vstr "", sent_24h := .vbool false, sent_1h := .vbool false,
    gcal_uid := .vstr "" }

/-- A taken slot row (names Bea Ng). -/
def exTakenRow : Row :=
  { exOpenRow with
      first_name := .vstr "Bea", last_name := .vstr "Ng",
      email := .vstr "bea@x.y", user_id := .vstr "3" }

/-- A reserved slot row with a whitespace-only COMPLETED cell and a
mixed-case stored email. -/
def exReservedRow : Row :=
  { exOpenRow with
      first_name := .vstr "Ann", last_name := .vstr "Lee",
      completed := .vstr " ", email := .vstr "Ann@My.Cleary.EDU",
      user_id := .vstr "7", reserved_at := .vstr "x", sent_24h := .vbool true,
      gcal_uid := .vstr "u-1" }

/-- A row with whitespace-padded name cells, for the classification
claim. -/
def exPaddedNameRow : Row :=
  { exOpenRow with
      first_name := .vstr "  ", last_name := .vstr "Ng ",
      email := .vstr "n@x.y", user_id := .vstr "3" }

/-- The slot `list_slots` parses from `exPaddedNameRow`. -/
def exPaddedNameSlot : Slot :=
  { row := 4, event := "Tour", location := "Lobby",
    start_dt := slot_datetime 739181 36000, end_dt := slot_datetime 739181 39600,
    hours := some 1, contact := "Kevin", first_name := "", last_name := "Ng",
    completed := "", email := "n@x.y" }

/-- A row whose raw end time (08:20) is before its start time (10:00). -/
def exWrapRow : Row :=
  { exOpenRow with first_name := .vstr "", end_time := .vtime 30000 }

/-- The slot `list_slots` parses from `exWrapRow`: the end datetime has
rolled over to the next day. -/
def exWrapSlot : Slot :=
  { row := 4, event := "Tour", location := "Lobby",
    start_dt := slot_datetime 739181 36000,
    end_dt := slot_datetime 739181 30000 + 86400, hours := some 1,
    contact := "Kevin", first_name := "", last_name := "", completed := "",
    email := "" }

/-- A reserved slot row as the reminder sweep sees it: non-blank email,
valid dates, flags false, blank GCAL_UID. -/
def exSweepRow : Row :=
  { exOpenRow with
      first_name := .vstr "Ann", last_name := .vstr "Lee",
      email := .vstr "a@b.c", user_id := .vstr "7" }

/-- `exSweepRow` with a whitespace-padded non-blank GCAL_UID. -/
def exPaddedUidRow : Row :=
  { exSweepRow with gcal_uid := .vstr " abc " }

/-- A leftover row whose EVENT, DATE and START TIME cells are blank but
whose LOCATION cell is not: the placement scan of `admin_add_slot_excel`
stops here although the row is not fully blank. -/
def exLocOnlyRow : Row :=
  { event := .vnone, location := .vstr "Lobby", date := .vnone,
    start_time := .vnone, end_time := .vnone, hours := .vnone,
    contact := .vnone, first_name := .vnone, last_name := .vnone,
    completed := .vnone, email := .vnone, user_id := .vnone,
    reserved_at := .vnone, sent_24h := .vnone, sent_1h := .vnone,
    gcal_uid := .vnone }

/-- A fully blank row: every cell `None`. -/
def exAllBlankRow : Row :=
  { exLocOnlyRow with location := .vnone }

/-- A header row with an interior gap: an empty cell in column 1 followed
by a GCAL_UID header in column 2. -/
def exGapHeader : List Value :=
  [Value.vnone, Value.vstr "GCAL_UID"]

/-- Modelled from the claim's words, not from the source: a *fully* blank
row, every one of whose cells is blank (falsy).  Used to compare the
claimed placement rule of `add_slot` with the one the code implements. -/
def spec_fully_blank (row : Row) : Bool :=
  !(row.event.truthy || row.location.truthy || row.date.truthy ||
    row.start_time.truthy || row.end_time.truthy || row.hours.truthy ||
    row.contact.truthy || row.first_name.truthy || row.last_name.truthy ||
    row.completed.truthy || row.email.truthy || row.user_id.truthy ||
    row.reserved_at.truthy || row.sent_24h.truthy || row.sent_1h.truthy ||
    row.gcal_uid.truthy)

/-! ### String lemmas -/

theorem dropWhile_dropWhile (p : Char → Bool) (l : List Char) :
    (l.dropWhile p).dropWhile p = l.dropWhile p := by
  induction l with
  | nil => rfl
  | cons a t ih =>
    by_cases h : p a
    · simp [List.dropWhile_cons, h, ih]
    · simp [List.dropWhile_cons, h]

theorem dropTrail_dropTrail (l : List Char) :
    dropTrail (dropTrail l) = dropTrail l := by
  induction l with
  | nil => rfl
  | cons a t ih =>
    cases h : dropTrail t with
    | nil =>
      by_cases ha : isPySpace a
      · simp [dropTrail, h, ha]
      · simp [dropTrail, h, ha]
    | cons b t' =>
      rw [dropTrail, h]
      rw [h] at ih
      rw [dropTrail, ih]

theorem head_not_of_dropWhile_self {p : Char → Bool} {a : Char} {t : List Char}
    (h : (a :: t).dropWhile p = a :: t) : p a = false := by
  rw [List.dropWhile_eq_self_iff] at h
  simpa using h

theorem dropWhile_dropTrail {l : List Char}
    (h : l.dropWhile isPySpace = l) :
    (dropTrail l).dropWhile isPySpace = dropTrail l := by
  cases l with
  | nil => rfl
  | cons a t =>
    have ha : isPySpace a = false := head_not_of_dropWhile_self h
    cases ht : dropTrail t with
    | nil => simp [dropTrail, ht, ha, List.dropWhile_cons]
    | cons b t' => simp [dropTrail, ht, ha, List.dropWhile_cons]

theorem pyStrip_idem (s : String) : pyStrip (pyStrip s) = pyStrip s := by
  unfold pyStrip
  have h1 : ((s.data.dropWhile isPySpace).dropWhile isPySpace)
      = s.data.dropWhile isPySpace := dropWhile_dropWhile _ _
  have h2 : (dropTrail (s.data.dropWhile isPySpace)).dropWhile isPySpace
      = dropTrail (s.data.dropWhile isPySpace) := dropWhile_dropTrail h1
  simp [h2, dropTrail_dropTrail]

theorem strOrEmpty_vstr (s : String) : strOrEmpty (.vstr s) = s := by
  by_cases h : s = ""
  · simp [strOrEmpty, Value.truthy, Value.pyStr, h]
  · simp [strOrEmpty, Value.truthy, Value.pyStr, h]

/-! ### Claims about `reserve_excel_slot` -/

/-- C1: reserving a slot whose FIRST NAME and LAST NAME cells are blank
(empty or whitespace-only, so that their stripped string form is empty)
succeeds, writes the user's (stripped) first and last name, the lowercased
stripped email, the user id and the reservation timestamp, resets both
sent-flags to `False` and sets GCAL_UID to the empty string; reading the
slot back afterwards yields `is_taken = true` and both sent-flags false.
The hypotheses on the user's names restate the validation `create_user`
enforces on every account: both names are non-blank. -/
theorem reserve_blank_slot_spec (row : Row) (user : User) (nowOrd : Int) (nowSecs : Nat)
    (hfn : pyStrip (strOrEmpty row.first_name) = "")
    (hln : pyStrip (strOrEmpty row.last_name) = "")
    (hufn : pyStrip user.first_name ≠ "")
    (huln : pyStrip user.last_name ≠ "") :
    (reserve_excel_slot row user nowOrd nowSecs).1 = (true, "Reserved!") ∧
    (reserve_excel_slot row user nowOrd nowSecs).2 =
      { row with
          first_name := .vstr (pyStrip user.first_name)
          last_name := .vstr (pyStrip user.last_name)
          email := .vstr (pyLower (pyStrip user.email))
          user_id := .vstr user.id
          reserved_at := .vdatetime nowOrd nowSecs
          sent_24h := .vbool false
          sent_1h := .vbool false
          gcal_uid := .vstr "" } ∧
    row_is_taken (reserve_excel_slot row user nowOrd nowSecs).2 = true ∧
    ((reserve_excel_slot row user nowOrd nowSecs).2.sent_24h).truthy = false ∧
    ((reserve_excel_slot row user nowOrd nowSecs).2.sent_1h).truthy = false := by
  have hopen : row_is_taken row = false := by
    simp [row_is_taken, hfn, hln]
  have hres : reserve_excel_slot row user nowOrd nowSecs =
      ((true, "Reserved!"),
        { row with
            first_name := .vstr (pyStrip user.first_name)
            last_name := .vstr (pyStrip user.last_name)
            email := .vstr (pyLower (pyStrip user.email))
            user_id := .vstr user.id
            reserved_at := .vdatetime nowOrd nowSecs
            sent_24h := .vbool false
            sent_1h := .vbool false
            gcal_uid := .vstr "" }) := by
    simp only [reserve_excel_slot, hopen, Bool.false_eq_true, if_false]
  rw [hres]
  refine ⟨rfl, rfl, ?_, rfl, rfl⟩
  simp [row_is_taken, strOrEmpty_vstr, pyStrip_idem, hufn]

theorem reserve_blank_slot_spec_witness :
    pyStrip (strOrEmpty exOpenRow.first_name) = "" ∧
    (reserve_excel_slot exOpenRow
        { first_name := " Ann ", last_name := "Lee", email := " Ann@My.Cleary.EDU ", id := "7" }
        739180 3600).1 = (true, "Reserved!") :=
  ⟨by decide,
    (reserve_blank_slot_spec exOpenRow _ 739180 3600 (by decide) (by decide) (by decide)
      (by decide)).1⟩

/-- C5: reserving a slot whose FIRST NAME or LAST NAME strips to a
non-empty string fails with "That slot is already taken." and leaves the
slot's row (every one of its cells) unchanged: the workbook is closed
without saving. -/
theorem reserve_taken_slot_frame (row : Row) (user : User) (nowOrd : Int) (nowSecs : Nat)
    (h : pyStrip (strOrEmpty row.first_name) ≠ "" ∨ pyStrip (strOrEmpty row.last_name) ≠ "") :
    (reserve_excel_slot row user nowOrd nowSecs).1 =
      (false, "That slot is already taken.") ∧
    (reserve_excel_slot row user nowOrd nowSecs).2 = row := by
  have htaken : row_is_taken row = true := by
    rcases h with h | h <;> simp [row_is_taken, h]
  exact ⟨by simp [reserve_excel_slot, htaken], by simp [reserve_excel_slot, htaken]⟩

theorem reserve_taken_slot_frame_witness :
    pyStrip (strOrEmpty exTakenRow.first_name) ≠ "" ∧
    (reserve_excel_slot exTakenRow
        { first_name := "Ann", last_name := "Lee", email := "a@b.c", id := "7" }
        739180 3600).2 = exTakenRow :=
  ⟨by decide,
    (reserve_taken_slot_frame exTakenRow _ 739180 3600 (Or.inl (by decide))).2⟩

/-! ### Claims about `cancel_excel_reservation` -/

/-- C2: cancel succeeds exactly when the slot's stored EMAIL matches the
requester's email case-insensitively after stripping (the code compares
`str(cell or "").strip().lower()` with `email.strip().lower()`) and the
COMPLETED cell strips to blank; on a non-match or a non-blank COMPLETED it
fails, and on success it blanks FIRST NAME, LAST NAME, EMAIL, USER_ID and
RESERVED_AT, resets SENT_24H and SENT_1H to `False` and clears GCAL_UID. -/
theorem cancel_reservation_spec (row : Row) (email : String) :
    ((cancel_excel_reservation row email).1.1 = true ↔
      (pyLower (pyStrip (strOrEmpty row.email)) = pyLower (pyStrip email) ∧
        pyStrip (strOrEmpty row.completed) = "")) ∧
    (pyLower (pyStrip (strOrEmpty row.email)) = pyLower (pyStrip email) →
      pyStrip (strOrEmpty row.completed) = "" →
      (cancel_excel_reservation row email).2 = cleared_row row) := by
  by_cases hm : pyLower (pyStrip (strOrEmpty row.email)) = pyLower (pyStrip email)
  · by_cases hc : pyStrip (strOrEmpty row.completed) = ""
    · constructor
      · simp [cancel_excel_reservation, hm, hc]
      · intro _ _
        simp [cancel_excel_reservation, hm, hc, cleared_row]
    · constructor
      · simp [cancel_excel_reservation, hm, hc]
      · intro _ h
        exact absurd h hc
  · constructor
    · simp [cancel_excel_reservation, hm]
    · intro h
      exact absurd h hm

theorem cancel_reservation_spec_witness :
    pyLower (pyStrip (strOrEmpty exReservedRow.email)) =
        pyLower (pyStrip " ann@my.cleary.edu ") ∧
    (cancel_excel_reservation exReservedRow " ann@my.cleary.edu ").2 =
      cleared_row exReservedRow :=
  ⟨by decide,
    (cancel_reservation_spec exReservedRow " ann@my.cleary.edu ").2 (by decide) (by decide)⟩

/-! ### Claim about the taken/open classification -/

/-- C6: the taken/open classification is blankness of the name fields.
On a parsed `Slot` the Signups tab computes
`bool(s.first_name.strip() or s.last_name.strip())`, which equals the
claim's predicate `first_name.strip() != "" or last_name.strip() != ""`;
and for a slot parsed from a row, this classification coincides with the
check `reserve_excel_slot` performs on the raw cells, so whitespace-only
name cells count as blank and no dedicated boolean is consulted. -/
theorem is_taken_classification (s : Slot) (row : Row) (r : Nat) :
    (signups_is_taken s = true ↔
      (pyStrip s.first_name ≠ "" ∨ pyStrip s.last_name ≠ "")) ∧
    (rowToSlot r row = some s → signups_is_taken s = row_is_taken row) := by
  constructor
  · simp [signups_is_taken]
  · intro h
    have hfn : s.first_name = pyStrip (strOrEmpty row.first_name) ∧
        s.last_name = pyStrip (strOrEmpty row.last_name) := by
      unfold rowToSlot at h
      split at h
      · exact absurd h (by simp)
      · split at h
        · exact absurd h (by simp)
        · split at h
          · rename_i d stt ent _
            simp only [Option.some.injEq] at h
            rw [← h]
            exact ⟨rfl, rfl⟩
          · exact absurd h (by simp)
    rw [signups_is_taken, row_is_taken, hfn.1, hfn.2, pyStrip_idem, pyStrip_idem]

theorem is_taken_classification_witness :
    rowToSlot 4 exPaddedNameRow = some exPaddedNameSlot ∧
    signups_is_taken exPaddedNameSlot = row_is_taken exPaddedNameRow :=
  ⟨by decide,
    (is_taken_classification exPaddedNameSlot exPaddedNameRow 4).2 (by decide)⟩

/-! ### Claim about `list_slots` -/

theorem list_slots_go_cons_some {r0 : Nat} {row : Row} {rest : List Row} {s' : Slot}
    (h : rowToSlot r0 row = some s') :
    list_slots_go r0 (row :: rest) = s' :: list_slots_go (r0 + 1) rest := by
  rw [list_slots_go, h]

theorem list_slots_go_cons_none {r0 : Nat} {row : Row} {rest : List Row}
    (h : rowToSlot r0 row = none) :
    list_slots_go r0 (row :: rest) = list_slots_go (r0 + 1) rest := by
  rw [list_slots_go, h]

theorem mem_list_slots_go (s : Slot) (rows : List Row) : ∀ r0 : Nat,
    s ∈ list_slots_go r0 rows ↔
      ∃ i rowi, rows[i]? = some rowi ∧ rowToSlot (r0 + i) rowi = some s := by
  induction rows with
  | nil => intro r0; simp [list_slots_go]
  | cons row rest ih =>
    intro r0
    cases h : rowToSlot r0 row with
    | some s' =>
      rw [list_slots_go_cons_some h]
      simp only [List.mem_cons, ih (r0 + 1)]
      constructor
      · rintro (rfl | ⟨i, rowi, h1, h2⟩)
        · exact ⟨0, row, by simp, by simpa using h⟩
        · refine ⟨i + 1, rowi, by simpa using h1, ?_⟩
          have he : r0 + (i + 1) = r0 + 1 + i := by omega
          rw [he]; exact h2
      · rintro ⟨i, rowi, h1, h2⟩
        cases i with
        | zero =>
          simp only [List.getElem?_cons_zero, Option.some.injEq] at h1
          subst h1
          rw [Nat.add_zero, h] at h2
          exact Or.inl (by simpa using h2.symm)
        | succ i =>
          refine Or.inr ⟨i, rowi, by simpa using h1, ?_⟩
          have he : r0 + 1 + i = r0 + (i + 1) := by omega
          rw [he]; exact h2
    | none =>
      rw [list_slots_go_cons_none h]
      rw [ih (r0 + 1)]
      constructor
      · rintro ⟨i, rowi, h1, h2⟩
        refine ⟨i + 1, rowi, by simpa using h1, ?_⟩
        have he : r0 + (i + 1) = r0 + 1 + i := by omega
        rw [he]; exact h2
      · rintro ⟨i, rowi, h1, h2⟩
        cases i with
        | zero =>
          simp only [List.getElem?_cons_zero, Option.some.injEq] at h1
          subst h1
          rw [Nat.add_zero, h] at h2
          exact absurd h2 (by simp)
        | succ i =>
          refine ⟨i, rowi, by simpa using h1, ?_⟩
          have he : r0 + 1 + i = r0 + (i + 1) := by omega
          rw [he]; exact h2

/-- C9: a row below the header yields a slot iff its event name is
non-blank and its DATE, START TIME and END TIME cells parse (all other
rows are skipped); `list_slots` returns exactly those slots, numbered
from `header_row + 1`; and every returned slot has `end_dt` strictly
after `start_dt` — when the raw end time is at or before the start time,
the end datetime is advanced by one day.  (The wellformedness hypothesis
`time_secs_ok` records that a real time cell has fewer than 86400
seconds.) -/
theorem list_slots_spec (header_row r : Nat) (rows : List Row) (row : Row) :
    ((rowToSlot r row).isSome ↔
      (event_name row ≠ "" ∧ (parse_excel_date row.date).isSome ∧
        (parse_excel_time row.start_time).isSome ∧
        (parse_excel_time row.end_time).isSome)) ∧
    (∀ s, rowToSlot r row = some s → time_secs_ok row.start_time = true →
      s.start_dt < s.end_dt) ∧
    (∀ s, s ∈ list_slots header_row rows ↔
      ∃ i rowi, rows[i]? = some rowi ∧
        rowToSlot (header_row + 1 + i) rowi = some s) := by
  refine ⟨⟨?_, ?_⟩, ?_, ?_⟩
  · intro hs
    unfold rowToSlot at hs
    split at hs
    · simp at hs
    · split at hs
      · rename_i hev
        simp at hs
      · rename_i hguard hev
        split at hs
        · rename_i d stt ent hd hst hen
          refine ⟨by simpa using hev, ?_, ?_, ?_⟩ <;> simp [hd, hst, hen]
        · simp at hs
  · rintro ⟨hev, hd, hst, hen⟩
    have htruthy : row.event.truthy = true := by
      by_contra hne
      have hf : row.event.truthy = false := by
        cases hx : row.event.truthy
        · rfl
        · exact absurd hx hne
      exact hev (by simp [event_name, hf])
    obtain ⟨d, hd'⟩ := Option.isSome_iff_exists.mp hd
    obtain ⟨stt, hst'⟩ := Option.isSome_iff_exists.mp hst
    obtain ⟨ent, hen'⟩ := Option.isSome_iff_exists.mp hen
    unfold rowToSlot
    rw [htruthy]
    simp only [Bool.true_or, Bool.not_true]
    rw [if_neg (by simp)]
    rw [if_neg (by simpa using hev)]
    rw [hd', hst', hen']
    simp
  · intro s hs hwf
    unfold rowToSlot at hs
    split at hs
    · simp at hs
    · split at hs
      · simp at hs
      · split at hs
        · rename_i d stt ent hd hst hen
          simp only [Option.some.injEq] at hs
          have hstart : s.start_dt = slot_datetime d stt := by rw [← hs]
          have hend : s.end_dt =
              (if slot_datetime d ent ≤ slot_datetime d stt then
                slot_datetime d ent + 86400
              else slot_datetime d ent) := by rw [← hs]
          have hlt : stt < 86400 := by
            unfold time_secs_ok at hwf
            rw [hst] at hwf
            simpa using hwf
          rw [hstart, hend]
          unfold slot_datetime
          split
          · omega
          · omega
        · simp at hs
  · intro s
    exact mem_list_slots_go s rows (header_row + 1)

theorem list_slots_spec_witness :
    rowToSlot 4 exWrapRow = some exWrapSlot ∧
    exWrapSlot.start_dt < exWrapSlot.end_dt :=
  ⟨by decide,
    (list_slots_spec 3 4 [] exWrapRow).2.1 exWrapSlot (by decide) (by decide)⟩

/-! ### Claims about the reminder sweep -/

/-- C3: for a slot the sweep considers (non-blank email, truthy event and
date/time cells, parseable date/start/end), with `delta = start_at - now`,
the 24-hour reminder is sent iff 23.5 h ≤ delta ≤ 24.5 h (84600 s to
88200 s) and SENT_24H was false, and the 1-hour reminder is sent iff
0.5 h ≤ delta ≤ 1.5 h (1800 s to 5400 s) and SENT_1H was false; each send
sets its flag cell to `True` and a non-send leaves the flag cell as it
was.  The 1-hour decision does not mention the 24-hour flag. -/
theorem reminder_window_spec (row : Row) (now : Int) (fresh : String) (start_dt : Int)
    (hc : reminder_considered row = true)
    (hs : parse_dt row.date row.start_time = some start_dt) :
    ((reminder_row_step now fresh row).sent24 = true ↔
      (84600 ≤ start_dt - now ∧ start_dt - now ≤ 88200 ∧
        row.sent_24h.truthy = false)) ∧
    ((reminder_row_step now fresh row).sent1 = true ↔
      (1800 ≤ start_dt - now ∧ start_dt - now ≤ 5400 ∧
        row.sent_1h.truthy = false)) ∧
    ((reminder_row_step now fresh row).row.sent_24h =
      if (reminder_row_step now fresh row).sent24 then .vbool true
      else row.sent_24h) ∧
    ((reminder_row_step now fresh row).row.sent_1h =
      if (reminder_row_step now fresh row).sent1 then .vbool true
      else row.sent_1h) := by
  have hc' := hc
  unfold reminder_considered at hc'
  simp only [Bool.and_eq_true] at hc'
  obtain ⟨⟨hb, _⟩, hen⟩ := hc'
  obtain ⟨e, he⟩ := Option.isSome_iff_exists.mp hen
  simp only [reminder_row_step, hb, if_true, hs, he]
  refine ⟨?_, ?_, ?_, ?_⟩
  · simp [window24, Bool.and_eq_true, and_assoc]
  · simp [window1, Bool.and_eq_true, and_assoc]
  · trivial
  · trivial

theorem reminder_window_spec_witness :
    reminder_considered exSweepRow = true ∧
    ((reminder_row_step (slot_datetime 739181 36000 - 86400) "f-1" exSweepRow).sent24 =
        true ↔
      (84600 ≤ (slot_datetime 739181 36000 : Int) -
          (slot_datetime 739181 36000 - 86400) ∧
        (slot_datetime 739181 36000 : Int) - (slot_datetime 739181 36000 - 86400) ≤
          88200 ∧
        exSweepRow.sent_24h.truthy = false)) :=
  ⟨by decide,
    (reminder_window_spec exSweepRow (slot_datetime 739181 36000 - 86400) "f-1"
      (slot_datetime 739181 36000) (by decide) (by decide)).1⟩

/-- C10: a single sweep invocation writes a non-empty GCAL_UID into every
row it considers, whatever `now` is and whether or not a reminder email
is sent: the stripped stored UID when that is non-blank, and the freshly
drawn UUID string (always non-empty) when the stored cell strips to
blank. -/
theorem sweep_writes_uid (row : Row) (now : Int) (fresh : String)
    (hc : reminder_considered row = true) (hf : fresh ≠ "") :
    ∃ u, (reminder_row_step now fresh row).row.gcal_uid = .vstr u ∧ u ≠ "" ∧
      (pyStrip (strOrEmpty row.gcal_uid) = "" → u = fresh) ∧
      (pyStrip (strOrEmpty row.gcal_uid) ≠ "" →
        u = pyStrip (strOrEmpty row.gcal_uid)) := by
  have hc' := hc
  unfold reminder_considered at hc'
  simp only [Bool.and_eq_true] at hc'
  obtain ⟨⟨hb, hst⟩, hen⟩ := hc'
  obtain ⟨d, hd⟩ := Option.isSome_iff_exists.mp hst
  obtain ⟨e, he⟩ := Option.isSome_iff_exists.mp hen
  simp only [reminder_row_step, hb, if_true, hd, he]
  by_cases hu : pyStrip (strOrEmpty row.gcal_uid) = ""
  · exact ⟨fresh, by simp [hu], hf, fun _ => rfl, fun h => absurd hu h⟩
  · exact ⟨pyStrip (strOrEmpty row.gcal_uid), by simp [hu], hu,
      fun h => absurd h hu, fun _ => rfl⟩

theorem sweep_writes_uid_witness :
    reminder_considered exSweepRow = true ∧
    pyStrip (strOrEmpty exSweepRow.gcal_uid) = "" ∧
    (reminder_row_step 0 "4ae2-bc" exSweepRow).row.gcal_uid = .vstr "4ae2-bc" := by
  refine ⟨by decide, by decide, ?_⟩
  obtain ⟨u, h1, h2, h3, h4⟩ :=
    sweep_writes_uid exSweepRow 0 "4ae2-bc" (by decide) (by decide)
  rw [h1, h3 (by decide)]

/-- C4 counterexample: a considered slot whose GCAL_UID cell holds the
non-blank value `" abc "`.  The sweep does not rewrite the cell
unchanged: it writes back the stripped value `"abc"`, so the claim that
once GCAL_UID is non-blank every sweep reads the same value back and
rewrites it unchanged fails on this input. -/
theorem sweep_uid_rewrite_counterexample :
    reminder_considered exPaddedUidRow = true ∧
    strOrEmpty exPaddedUidRow.gcal_uid ≠ "" ∧
    (reminder_row_step 0 "11111111-2222" exPaddedUidRow).row.gcal_uid ≠
      exPaddedUidRow.gcal_uid := by decide

theorem truthy_vbool (b : Bool) : (Value.vbool b).truthy = b := rfl

theorem reminder_basic_ok_update (row : Row) (g s24 s1 : Value) :
    reminder_basic_ok
        { row with gcal_uid := g, sent_24h := s24, sent_1h := s1 } =
      reminder_basic_ok row := rfl

/-- C4 as amended: (a) re-running the sweep body on a row immediately
(same `now`, whatever fresh UUID is drawn) sends nothing for that slot —
in particular after an invocation that sent a reminder and set its flag;
and (b) once GCAL_UID holds a non-blank value equal to its own strip (as
every sweep-generated UUID is), every subsequent sweep rewrites exactly
that value, so the UID is stable across invocations.  Only the
whitespace-padded case of the original claim fails: the sweep writes
back the stripped value. -/
theorem sweep_idempotent_amended (row : Row) (now now2 : Int) (f1 f2 g s : String) :
    ((reminder_row_step now f2 (reminder_row_step now f1 row).row).sent24 = false ∧
      (reminder_row_step now f2 (reminder_row_step now f1 row).row).sent1 = false) ∧
    (row.gcal_uid = .vstr s → pyStrip s = s → s ≠ "" →
      (reminder_row_step now2 g row).row.gcal_uid = .vstr s) := by
  constructor
  · by_cases hb : reminder_basic_ok row = true
    · cases hd : parse_dt row.date row.start_time with
      | none => simp [reminder_row_step, hb, hd]
      | some start_dt =>
        cases he : parse_dt row.date row.end_time with
        | none => simp [reminder_row_step, hb, hd, he]
        | some e =>
          simp only [reminder_row_step, hb, if_true, hd, he]
          cases h24 : window24 (start_dt - now) <;>
            cases hs24 : row.sent_24h.truthy <;>
            cases h1 : window1 (start_dt - now) <;>
            cases hs1 : row.sent_1h.truthy <;>
            simp [reminder_row_step, reminder_basic_ok_update, hb, hd, he,
              h24, hs24, h1, hs1, truthy_vbool]
    · have hb' : reminder_basic_ok row = false := by
        cases hx : reminder_basic_ok row
        · rfl
        · exact absurd hx hb
      simp [reminder_row_step, hb']
  · intro hu ht hne
    by_cases hb : reminder_basic_ok row = true
    · cases hd : parse_dt row.date row.start_time with
      | none => simp [reminder_row_step, hb, hd, hu]
      | some start_dt =>
        cases he : parse_dt row.date row.end_time with
        | none => simp [reminder_row_step, hb, hd, he, hu]
        | some e =>
          simp only [reminder_row_step, hb, if_true, hd, he]
          simp [hu, strOrEmpty_vstr, ht, hne]
    · have hb' : reminder_basic_ok row = false := by
        cases hx : reminder_basic_ok row
        · rfl
        · exact absurd hx hb
      simp [reminder_row_step, hb', hu]

theorem sweep_idempotent_amended_witness :
    exReservedRow.gcal_uid = .vstr "u-1" ∧
    ((reminder_row_step 5 "f-1" (reminder_row_step 5 "f-1" exReservedRow).row).sent24 =
        false ∧
      (reminder_row_step 5 "f-1" (reminder_row_step 5 "f-1" exReservedRow).row).sent1 =
        false) ∧
    (reminder_row_step 9 "g-0" exReservedRow).row.gcal_uid = .vstr "u-1" :=
  ⟨rfl,
    (sweep_idempotent_amended exReservedRow 5 9 "f-1" "f-1" "g-0" "u-1").1,
    (sweep_idempotent_amended exReservedRow 5 9 "f-1" "f-1" "g-0" "u-1").2 rfl
      (by decide) (by decide)⟩

/-! ### Claims about `admin_add_slot_excel` -/

/-- C7 counterexample: the placement scan stops at the first row whose
EVENT, DATE and START TIME cells are blank, even when that row is not
fully blank.  Here row index 1 (sheet row 5) has a non-blank LOCATION
cell, and the fully blank row at index 2 comes later; the code writes
the new slot over row index 1, so the claim that the new slot is placed
after / at the first *fully*-blank row fails. -/
theorem add_slot_placement_counterexample :
    spec_fully_blank exLocOnlyRow = false ∧
    spec_fully_blank exAllBlankRow = true ∧
    (admin_add_slot_excel 3 [exOpenRow, exLocOnlyRow, exAllBlankRow]
        "Open House" "Main" 739200 36000 39600 1 "Kev").2 =
      [exOpenRow,
        admin_new_row "Open House" "Main" 739200 36000 39600 1 "Kev",
        exAllBlankRow] := by
  decide

/-- C7 as amended: `admin_add_slot_excel` places the new slot at the
first row at or below `header_row + 1` whose EVENT, DATE and START TIME
cells are all blank (falsy) — the other cells of that row play no role
and are overwritten — or at the end of the table when no such row
exists; and it initializes FIRST NAME, LAST NAME, COMPLETED, EMAIL,
USER_ID and RESERVED_AT to blank, SENT_24H and SENT_1H to `False`, and
GCAL_UID to blank. -/
theorem add_slot_placement_amended (header_row : Nat) (rows : List Row)
    (event location : String) (d : Int) (start_t end_t : Nat) (hours : ℚ)
    (contact : String) :
    ((admin_add_slot_excel header_row rows event location d start_t end_t hours
          contact).2 =
      if rows.findIdx add_row_blank < rows.length then
        rows.set (rows.findIdx add_row_blank)
          (admin_new_row event location d start_t end_t hours contact)
      else rows ++ [admin_new_row event location d start_t end_t hours contact]) ∧
    (∀ j rj (hj : j < rows.length), j < rows.findIdx add_row_blank →
      rows.get ⟨j, hj⟩ = rj → add_row_blank rj = false) ∧
    (∀ ri (hi : rows.findIdx add_row_blank < rows.length),
      rows.get ⟨rows.findIdx add_row_blank, hi⟩ = ri → add_row_blank ri = true) ∧
    rows.findIdx add_row_blank ≤ rows.length ∧
    (admin_new_row event location d start_t end_t hours contact).first_name =
      .vstr "" ∧
    (admin_new_row event location d start_t end_t hours contact).last_name =
      .vstr "" ∧
    (admin_new_row event location d start_t end_t hours contact).completed =
      .vstr "" ∧
    (admin_new_row event location d start_t end_t hours contact).email =
      .vstr "" ∧
    (admin_new_row event location d start_t end_t hours contact).user_id =
      .vstr "" ∧
    (admin_new_row event location d start_t end_t hours contact).reserved_at =
      .vstr "" ∧
    (admin_new_row event location d start_t end_t hours contact).sent_24h =
      .vbool false ∧
    (admin_new_row event location d start_t end_t hours contact).sent_1h =
      .vbool false ∧
    (admin_new_row event location d start_t end_t hours contact).gcal_uid =
      .vstr "" := by
  refine ⟨rfl, ?_, ?_, List.findIdx_le_length add_row_blank, rfl, rfl, rfl, rfl,
    rfl, rfl, rfl, rfl, rfl⟩
  · intro j rj hj hlt hget
    have h := List.not_of_lt_findIdx hlt
    rw [← hget]
    simpa using h
  · intro ri hi hget
    have h := List.findIdx_getElem (w := hi)
    rw [← hget]
    simpa using h

theorem add_slot_placement_amended_witness :
    [exOpenRow, exLocOnlyRow, exAllBlankRow].findIdx add_row_blank = 1 ∧
    add_row_blank exLocOnlyRow = true :=
  ⟨by decide,
    (add_slot_placement_amended 3 [exOpenRow, exLocOnlyRow, exAllBlankRow]
        "Open House" "Main" 739200 36000 39600 1 "Kev").2.2.1 exLocOnlyRow
      (by decide) (by decide)⟩

/-! ### Claims about `ensure_tracking_columns` -/

theorem findIdx_vnone_eq_length {hdr : List Value} (h : Value.vnone ∉ hdr) :
    hdr.findIdx (fun v => v == Value.vnone) = hdr.length := by
  induction hdr with
  | nil => rfl
  | cons a t ih =>
    have ha : (a == Value.vnone) = false := by
      simp only [beq_eq_false_iff_ne, ne_eq]
      intro he
      exact h (he ▸ List.mem_cons_self a t)
    rw [List.findIdx_cons, ha]
    simp only [cond_false]
    rw [ih (fun hm => h (List.mem_cons_of_mem a hm))]
    rfl

theorem set_col_append (hdr : List Value) (v : Value) :
    set_col hdr (hdr.length + 1) v = hdr ++ [v] := by
  unfold set_col
  rw [if_neg (by omega)]
  simp

theorem ensure_go_append (orig : List Value) (ths : List String) :
    ∀ hdr : List Value,
      ensure_go orig ths hdr (hdr.length + 1) =
        hdr ++ (ths.filter fun th => !header_has orig (pyUpper th)).map Value.vstr := by
  induction ths with
  | nil => intro hdr; simp [ensure_go]
  | cons th rest ih =>
    intro hdr
    by_cases h : header_has orig (pyUpper th) = true
    · rw [ensure_go, if_pos h, ih hdr]
      simp [List.filter_cons, h]
    · have h' : header_has orig (pyUpper th) = false := by
        cases hx : header_has orig (pyUpper th)
        · rfl
        · exact absurd hx h
      rw [ensure_go, if_neg (by rw [h']; exact Bool.false_ne_true), set_col_append]
      have hlen : (hdr ++ [Value.vstr th]).length + 1 = hdr.length + 1 + 1 := by
        simp
      rw [← hlen, ih (hdr ++ [Value.vstr th])]
      simp [List.filter_cons, h']

theorem header_has_append (l1 l2 : List Value) (n : String) :
    header_has (l1 ++ l2) n = (header_has l1 n || header_has l2 n) := by
  unfold header_has
  exact List.any_append

theorem ensure_tracking_eq_append {hdr : List Value} (hng : Value.vnone ∉ hdr) :
    ensure_tracking_columns hdr =
      hdr ++
        (TRACK_HEADERS.filter fun th => !header_has hdr (pyUpper th)).map
          Value.vstr := by
  have hidx : first_none_col hdr = hdr.length + 1 := by
    unfold first_none_col
    rw [findIdx_vnone_eq_length hng]
  unfold ensure_tracking_columns
  rw [hidx, ensure_go_append]

/-- C8 counterexample: a header row with an interior empty cell
(`exGapHeader` = [None, "GCAL_UID"]).  The provisioning scan stops at the
empty first column, writes the missing headers from there and overwrites
the existing GCAL_UID header (which it skips as already present), so one
run loses GCAL_UID and a second run appends it again: the function is not
idempotent and does not place new headers after the existing columns. -/
theorem ensure_tracking_counterexample :
    header_has exGapHeader "GCAL_UID" = true ∧
    header_has (ensure_tracking_columns exGapHeader) "GCAL_UID" = false ∧
    ensure_tracking_columns (ensure_tracking_columns exGapHeader) ≠
      ensure_tracking_columns exGapHeader := by
  decide

/-- C8 as amended: when the header row has no empty cell among its used
columns (no interior gaps), `ensure_tracking_columns` appends exactly
the tracking headers not already present, in order, after the existing
columns; a sheet already containing all six headers is left unchanged;
and running the function twice gives the same header row as running it
once.  (With an interior empty header cell the scan writes into the gap,
can overwrite later headers, and a second run can change the row again —
see the counterexample.) -/
theorem ensure_tracking_amended (hdr : List Value) (hng : Value.vnone ∉ hdr) :
    (ensure_tracking_columns hdr =
      hdr ++
        (TRACK_HEADERS.filter fun th => !header_has hdr (pyUpper th)).map
          Value.vstr) ∧
    ((∀ th ∈ TRACK_HEADERS, header_has hdr (pyUpper th) = true) →
      ensure_tracking_columns hdr = hdr) ∧
    ensure_tracking_columns (ensure_tracking_columns hdr) =
      ensure_tracking_columns hdr := by
  have htrack : ∀ th ∈ TRACK_HEADERS, pyStrip th = th ∧ th ≠ "" ∧ pyUpper th = th := by
    decide
  refine ⟨ensure_tracking_eq_append hng, ?_, ?_⟩
  · intro hall
    have hnil : (TRACK_HEADERS.filter fun th => !header_has hdr (pyUpper th)) = [] := by
      rw [List.filter_eq_nil_iff]
      intro th hth
      simp [hall th hth]
    rw [ensure_tracking_eq_append hng, hnil]
    simp
  · set M := (TRACK_HEADERS.filter fun th => !header_has hdr (pyUpper th)).map
      Value.vstr with hM
    have h1 : ensure_tracking_columns hdr = hdr ++ M := ensure_tracking_eq_append hng
    have hng1 : Value.vnone ∉ hdr ++ M := by
      intro hmem
      rcases List.mem_append.mp hmem with hmem | hmem
      · exact hng hmem
      · rw [hM] at hmem
        obtain ⟨th, _, hth⟩ := List.mem_map.mp hmem
        exact Value.noConfusion hth
    have hall : ∀ th ∈ TRACK_HEADERS, header_has (hdr ++ M) (pyUpper th) = true := by
      intro th hth
      by_cases hh : header_has hdr (pyUpper th) = true
      · rw [header_has_append, hh]
        rfl
      · have hh' : header_has hdr (pyUpper th) = false := by
          cases hx : header_has hdr (pyUpper th)
          · rfl
          · exact absurd hx hh
        have hmem : Value.vstr th ∈ M := by
          rw [hM]
          exact List.mem_map_of_mem _
            (List.mem_filter.mpr ⟨hth, by rw [hh']; rfl⟩)
        rw [header_has_append, hh']
        have hM1 : header_has M (pyUpper th) = true := by
          unfold header_has
          rw [List.any_eq_true]
          refine ⟨Value.vstr th, hmem, ?_⟩
          obtain ⟨hstrip, hne, hupper⟩ := htrack th hth
          simp only [hstrip, hupper]
          simp [hne]
        rw [hM1]
        rfl
    have hnil1 : ((TRACK_HEADERS.filter
        fun th => !header_has (hdr ++ M) (pyUpper th)).map Value.vstr) = [] := by
      rw [List.filter_eq_nil_iff.mpr (fun th hth => by simp [hall th hth])]
      rfl
    rw [h1, ensure_tracking_eq_append hng1, hnil1]
    simp

theorem ensure_tracking_amended_witness :
    (Value.vnone ∉
        [Value.vstr "EVENT", Value.vstr "DATE", Value.vstr "GCAL_UID"]) ∧
    ensure_tracking_columns
        (ensure_tracking_columns
          [Value.vstr "EVENT", Value.vstr "DATE", Value.vstr "GCAL_UID"]) =
      ensure_tracking_columns
        [Value.vstr "EVENT", Value.vstr "DATE", Value.vstr "GCAL_UID"] :=
  ⟨by decide,
    (ensure_tracking_amended
        [Value.vstr "EVENT", Value.vstr "DATE", Value.vstr "GCAL_UID"]
        (by decide)).2.2⟩

end CUSA
